import Mathlib

set_option maxHeartbeats 1000000

/-!
Verification development for the places-offering frontend.

Part A embeds the CSV ingestion code (`src/utils/csvParser.ts`, also present
as `unnamed/part_000` with the extended demographic field list): the
quote-aware line tokenizer `parseCSVLine`, the header-driven row constructor,
and `parseCSV` with its coordinate-validity acceptance rule.

Part B embeds the marker render passes of `App.tsx` (`unnamed/part_001`):
`updateClusters` (the Clustered render pass over a Supercluster index), the
selected-store effect (Focused state), and the nearby-data fetch effect.

JavaScript numbers are modelled by the inductive `JsNum` with NaN, the two
infinities and exact rational finite values; float64 rounding and overflow of
finite decimal literals are abstracted away (a decimal digit literal is kept
exact), which none of the proved statements depend on.  A JavaScript value
that may be `undefined` is modelled with `Option`.
-/

/-- Model of a JavaScript number: NaN, an infinity, or an exact finite value. -/
inductive JsNum where
  | nan
  | inf
  | neginf
  | fin (q : ℚ)
deriving DecidableEq

/-- JavaScript `isNaN` on a number value. -/
def JsNum.isNaN : JsNum → Bool
  | .nan => true
  | _ => false

/-- JavaScript `Number.isFinite`: true exactly on finite values. -/
def JsNum.isFiniteNum : JsNum → Bool
  | .fin _ => true
  | _ => false

/-- JavaScript truthiness of a number: NaN and 0 are falsy, all else truthy. -/
def JsNum.truthy : JsNum → Bool
  | .nan => false
  | .fin q => decide (q ≠ 0)
  | _ => true

/-- Numeric value of the decimal digit character `c`. -/
def digitVal (c : Char) : ℕ := c.toNat - '0'.toNat

/-- Value of a list of decimal digit characters, most significant first. -/
def digitsToNat (ds : List Char) : ℕ :=
  ds.foldl (fun a c => a * 10 + digitVal c) 0

/-- The character list of the literal `Infinity` accepted by `parseFloat`. -/
def infinityLit : List Char := ['I', 'n', 'f', 'i', 'n', 'i', 't', 'y']

/-- Exponent digits of a `parseFloat` exponent part; an exponent marker not
followed by digits is not consumed, leaving exponent 0 (JS longest-valid
literal rule, e.g. `parseFloat "1e"` is 1). -/
def expDigitsVal (cs : List Char) (neg : Bool) : ℤ :=
  let ds := cs.takeWhile (fun c => c.isDigit)
  if ds.isEmpty then 0
  else if neg then -(digitsToNat ds : ℤ) else (digitsToNat ds : ℤ)

/-- Signed exponent digits after the `e`/`E` marker. -/
def expSigned : List Char → ℤ
  | '+' :: rest => expDigitsVal rest false
  | '-' :: rest => expDigitsVal rest true
  | cs => expDigitsVal cs false

/-- Optional exponent part of a decimal literal. -/
def expPart : List Char → ℤ
  | 'e' :: rest => expSigned rest
  | 'E' :: rest => expSigned rest
  | _ => 0

/-- Exact value of a decimal literal with integer digits `ip`, fraction digits
`fp`, exponent `ex` and sign `neg`. -/
def decValue (ip fp : List Char) (ex : ℤ) (neg : Bool) : ℚ :=
  let m : ℚ := (digitsToNat ip : ℚ) + (digitsToNat fp : ℚ) / ((10 : ℚ) ^ fp.length)
  let v := m * (10 : ℚ) ^ ex
  if neg then -v else v

/-- Unsigned part of `parseFloat`: `Infinity`, or digits with optional
fraction and exponent; NaN when no valid literal starts here. -/
def parseUnsigned (cs : List Char) (neg : Bool) : JsNum :=
  if infinityLit.isPrefixOf cs then (if neg then JsNum.neginf else JsNum.inf)
  else
    let ip := cs.takeWhile (fun c => c.isDigit)
    let r1 := cs.dropWhile (fun c => c.isDigit)
    match r1 with
    | '.' :: r2 =>
        let fp := r2.takeWhile (fun c => c.isDigit)
        let r3 := r2.dropWhile (fun c => c.isDigit)
        if ip.isEmpty && fp.isEmpty then JsNum.nan
        else JsNum.fin (decValue ip fp (expPart r3) neg)
    | _ =>
        if ip.isEmpty then JsNum.nan
        else JsNum.fin (decValue ip [] (expPart r1) neg)

/-- Optional sign of a `parseFloat` literal. -/
def parseSigned : List Char → JsNum
  | '+' :: rest => parseUnsigned rest false
  | '-' :: rest => parseUnsigned rest true
  | cs => parseUnsigned cs false

/-- Whitespace predicate used for JS trimming and `parseFloat` skipping. -/
def jsWhite (c : Char) : Bool := c.isWhitespace

/-- JavaScript `parseFloat` applied to a possibly-undefined field value:
`parseFloat undefined` coerces to the string `"undefined"` and yields NaN, so
the `none` case is NaN.  Leading whitespace is skipped, then the longest valid
decimal literal (or `Infinity`) is taken; otherwise NaN. -/
def parseFloat (s : Option String) : JsNum :=
  match s with
  | none => JsNum.nan
  | some s => parseSigned (s.data.dropWhile jsWhite)

/-- JavaScript `x || d` where `x` is a possibly-undefined string: `undefined`
and the empty string are falsy and fall through to `d`. -/
def jsOrStr (v : Option String) (d : String) : String :=
  match v with
  | some s => if s = "" then d else s
  | none => d

/-- JavaScript `n || 0` on a number: NaN and 0 fall through to 0. -/
def jsOrZero (n : JsNum) : JsNum := if n.truthy then n else JsNum.fin 0

/-- Template-literal interpolation of a possibly-undefined string value. -/
def jsTemplate : Option String → String
  | some s => s
  | none => "undefined"

/-- JavaScript `Array.prototype.indexOf`: first index of `name`, -1 if absent. -/
def jsIndexOf (headers : List String) (name : String) : ℤ :=
  match headers.findIdx? (fun h => h == name) with
  | some i => (i : ℤ)
  | none => -1

/-- JavaScript array indexing `fields[i]`: `undefined` (none) when the index
is negative or past the end. -/
def fieldAt (fields : List String) (i : ℤ) : Option String :=
  if i < 0 then none else fields[i.toNat]?

/-- The source pattern `fields[headers.indexOf name]`. -/
def lookupField (headers fields : List String) (name : String) : Option String :=
  fieldAt fields (jsIndexOf headers name)

/-- Quote-aware scanner of `parseCSVLine`, transcribed from the character
loop: a double quote immediately followed by another double quote while
inside quotes (`insideQuotes && nextChar === '"'`) emits one literal quote
and skips the second quote (`i++`); a double quote otherwise toggles the
quoted state; a comma outside quotes closes the current field; every other
character (including a comma inside quotes) is appended to the current
field; at end of input the current field is pushed. -/
def parseCSVLineChars : List Char → Bool → List Char → List (List Char) → List (List Char)
  | [], _, current, fields => fields ++ [current]
  | '"' :: '"' :: rest, true, current, fields =>
      parseCSVLineChars rest true (current ++ ['"']) fields
  | '"' :: rest, insideQuotes, current, fields =>
      parseCSVLineChars rest (!insideQuotes) current fields
  | ',' :: rest, false, current, fields =>
      parseCSVLineChars rest false [] (fields ++ [current])
  | c :: rest, insideQuotes, current, fields =>
      parseCSVLineChars rest insideQuotes (current ++ [c]) fields

/-- The tokenizer `parseCSVLine`, splitting one physical line into fields. -/
def parseCSVLine (line : String) : List String :=
  (parseCSVLineChars line.data false [] []).map (fun cs => String.mk cs)

/-- JavaScript `String.prototype.split` on a single separator character. -/
def splitChar (sep : Char) : List Char → List (List Char)
  | [] => [[]]
  | c :: rest =>
      match splitChar sep rest with
      | [] => [[]]
      | cur :: done => if c = sep then [] :: cur :: done else (c :: cur) :: done

/-- JavaScript `String.prototype.trim`: strip whitespace at both ends. -/
def trimChars (cs : List Char) : List Char :=
  ((cs.dropWhile jsWhite).reverse.dropWhile jsWhite).reverse

/-- The `Store` record of `csvParser.ts` / `part_000`.  Fields read without a
`|| ...` fallback can be `undefined` at runtime when the column is missing,
hence `Option String`; fields with `|| ''` or `|| 0` fallbacks always hold a
string resp. number. -/
structure Store where
  id : Option String
  google_lat : JsNum
  google_lon : JsNum
  name : Option String
  category : Option String
  address : Option String
  phone : String
  rating : JsNum
  location_type : String
  parking : String
  store_size : String
  T_TL : JsNum
  M_TL : JsNum
  F_TL : JsNum
  M_00_04 : JsNum
  M_05_09 : JsNum
  M_10_14 : JsNum
  M_15_19 : JsNum
  M_20_24 : JsNum
  M_25_29 : JsNum
  M_30_34 : JsNum
  M_35_39 : JsNum
  M_40_44 : JsNum
  M_45_49 : JsNum
  M_50_54 : JsNum
  M_55_59 : JsNum
  M_60_64 : JsNum
  M_65_69 : JsNum
  M_70_74 : JsNum
  M_75Plus : JsNum
  F_00_04 : JsNum
  F_05_09 : JsNum
  F_10_14 : JsNum
  F_15_19 : JsNum
  F_20_24 : JsNum
  F_25_29 : JsNum
  F_30_34 : JsNum
  F_35_39 : JsNum
  F_40_44 : JsNum
  F_45_49 : JsNum
  F_50_54 : JsNum
  F_55_59 : JsNum
  F_60_64 : JsNum
  F_65_69 : JsNum
  F_70_74 : JsNum
  F_75Plus : JsNum
  expenditure_band : String
deriving DecidableEq

/-- One numeric demographic field: `parseFloat(fields[...]) || 0`. -/
def numField (headers fields : List String) (name : String) : JsNum :=
  jsOrZero (parseFloat (lookupField headers fields name))

/-- The `Store` object literal built for one data row of `parseCSV`. -/
def mkStoreRecord (headers fields : List String) : Store :=
  { id := lookupField headers fields "id"
    google_lat := parseFloat (lookupField headers fields "google_lat")
    google_lon := parseFloat (lookupField headers fields "google_lon")
    name := lookupField headers fields "name"
    category := lookupField headers fields "category"
    address := lookupField headers fields "address"
    phone := jsOrStr (lookupField headers fields "phone") ""
    rating := numField headers fields "rating"
    location_type := jsOrStr (lookupField headers fields "location_type") ""
    parking := jsOrStr (lookupField headers fields "parking") ""
    store_size := jsOrStr (lookupField headers fields "store_size") ""
    T_TL := numField headers fields "T_TL"
    M_TL := numField headers fields "M_TL"
    F_TL := numField headers fields "F_TL"
    M_00_04 := numField headers fields "M_00_04"
    M_05_09 := numField headers fields "M_05_09"
    M_10_14 := numField headers fields "M_10_14"
    M_15_19 := numField headers fields "M_15_19"
    M_20_24 := numField headers fields "M_20_24"
    M_25_29 := numField headers fields "M_25_29"
    M_30_34 := numField headers fields "M_30_34"
    M_35_39 := numField headers fields "M_35_39"
    M_40_44 := numField headers fields "M_40_44"
    M_45_49 := numField headers fields "M_45_49"
    M_50_54 := numField headers fields "M_50_54"
    M_55_59 := numField headers fields "M_55_59"
    M_60_64 := numField headers fields "M_60_64"
    M_65_69 := numField headers fields "M_65_69"
    M_70_74 := numField headers fields "M_70_74"
    M_75Plus := numField headers fields "M_75Plus"
    F_00_04 := numField headers fields "F_00_04"
    F_05_09 := numField headers fields "F_05_09"
    F_10_14 := numField headers fields "F_10_14"
    F_15_19 := numField headers fields "F_15_19"
    F_20_24 := numField headers fields "F_20_24"
    F_25_29 := numField headers fields "F_25_29"
    F_30_34 := numField headers fields "F_30_34"
    F_35_39 := numField headers fields "F_35_39"
    F_40_44 := numField headers fields "F_40_44"
    F_45_49 := numField headers fields "F_45_49"
    F_50_54 := numField headers fields "F_50_54"
    F_55_59 := numField headers fields "F_55_59"
    F_60_64 := numField headers fields "F_60_64"
    F_65_69 := numField headers fields "F_65_69"
    F_70_74 := numField headers fields "F_70_74"
    F_75Plus := numField headers fields "F_75Plus"
    expenditure_band :=
      jsOrStr (lookupField headers fields "expenditure_band")
        (jsOrStr (lookupField headers fields "expenditure") "") }

/-- Fields of one data line, as tokenized inside the row loop. -/
def rowFields (line : List Char) : List String :=
  (parseCSVLineChars line false [] []).map (fun cs => String.mk cs)

/-- The acceptance check of `parseCSV`: both coordinates are non-NaN. -/
def validCoords (st : Store) : Bool :=
  !st.google_lat.isNaN && !st.google_lon.isNaN

/-- The data-row loop of `parseCSV`: skip blank lines, tokenize, build the
record, append it only when both coordinates are non-NaN. -/
def parseRows (headers : List String) : List (List Char) → List Store
  | [] => []
  | line :: rest =>
      if (trimChars line).isEmpty then parseRows headers rest
      else
        let st := mkStoreRecord headers (rowFields line)
        if validCoords st then st :: parseRows headers rest
        else parseRows headers rest

/-- Lines of the trimmed input, split on the newline character. -/
def csvLines (text : String) : List (List Char) :=
  splitChar '\n' (trimChars text.data)

/-- Header names: the first line split on plain commas (not quote-aware). -/
def csvHeaders (text : String) : List String :=
  match csvLines text with
  | [] => []
  | h :: _ => (splitChar ',' h).map (fun cs => String.mk cs)

/-- Data lines of the input; empty when there are fewer than two lines. -/
def csvDataLines (text : String) : List (List Char) :=
  if (csvLines text).length < 2 then [] else (csvLines text).drop 1

/-- The function `parseCSV`: trim, split into lines, bail out below two
lines, and run the row loop with the header names of the first line. -/
def parseCSV (csvText : String) : List Store :=
  let lines := csvLines csvText
  if lines.length < 2 then []
  else
    match lines with
    | [] => []
    | headerLine :: dataLines =>
        parseRows ((splitChar ',' headerLine).map (fun cs => String.mk cs)) dataLines

theorem parseCSV_eq (text : String) :
    parseCSV text = parseRows (csvHeaders text) (csvDataLines text) := by
  unfold parseCSV csvHeaders csvDataLines
  cases h : csvLines text with
  | nil => simp [parseRows]
  | cons hd tl =>
      simp only [List.length_cons]
      by_cases hlen : tl.length + 1 < 2
      · have htl : tl = [] := by
          cases tl with
          | nil => rfl
          | cons a b => simp only [List.length_cons] at hlen; omega
        subst htl
        simp [hlen, parseRows]
      · simp [hlen]

theorem parseRows_sound (headers : List String) :
    ∀ (lines : List (List Char)) (st : Store),
      st ∈ parseRows headers lines → validCoords st = true := by
  intro lines
  induction lines with
  | nil => intro st h; simp [parseRows] at h
  | cons line rest ih =>
      intro st h
      simp only [parseRows] at h
      split at h
      · exact ih st h
      · split at h
        · rcases List.mem_cons.mp h with h1 | h1
          · subst h1; assumption
          · exact ih st h1
        · exact ih st h

theorem parseRows_complete (headers : List String) :
    ∀ (lines : List (List Char)) (line : List Char), line ∈ lines →
      (trimChars line).isEmpty = false →
      validCoords (mkStoreRecord headers (rowFields line)) = true →
      mkStoreRecord headers (rowFields line) ∈ parseRows headers lines := by
  intro lines
  induction lines with
  | nil => intro line h; simp at h
  | cons l rest ih =>
      intro line hmem hblank hvalid
      rcases List.mem_cons.mp hmem with h1 | h1
      · subst h1
        simp only [parseRows]
        rw [if_neg (by simp [hblank]), if_pos hvalid]
        exact List.mem_cons_self _ _
      · simp only [parseRows]
        split
        · exact ih line h1 hblank hvalid
        · split
          · exact List.mem_cons_of_mem _ (ih line h1 hblank hvalid)
          · exact ih line h1 hblank hvalid

/-- C1 (amended): a row of the parsed CSV is appended to the output of
`parseCSV` iff both of its coordinate fields parse to non-NaN numbers
(unparsable or missing coordinates give NaN and the row is dropped with no
error surfaced); finiteness is NOT checked, so a coordinate that parses to
an infinity is accepted.  First conjunct: every output record has non-NaN
coordinates.  Second conjunct: every non-blank data line whose record passes
the coordinate check is present in the output. -/
theorem c1_amended_row_acceptance :
    (∀ (text : String) (st : Store), st ∈ parseCSV text →
        st.google_lat.isNaN = false ∧ st.google_lon.isNaN = false) ∧
    (∀ (text : String) (line : List Char), line ∈ csvDataLines text →
        (trimChars line).isEmpty = false →
        validCoords (mkStoreRecord (csvHeaders text) (rowFields line)) = true →
        mkStoreRecord (csvHeaders text) (rowFields line) ∈ parseCSV text) := by
  constructor
  · intro text st h
    rw [parseCSV_eq] at h
    have hv := parseRows_sound (csvHeaders text) (csvDataLines text) st h
    simp only [validCoords, Bool.and_eq_true, Bool.not_eq_true'] at hv
    exact hv
  · intro text line hmem hb hv
    rw [parseCSV_eq]
    exact parseRows_complete _ _ line hmem hb hv

/-- Input whose single data row has `google_lat = "Infinity"`: `parseFloat`
yields positive infinity, which is not NaN, so the row is accepted even
though the coordinate is not finite. -/
def c1Text : String := "id,google_lat,google_lon\nA,Infinity,50"

/-- C1 counterexample: the claim says a row is appended iff both coordinate
fields parse to finite numbers, but `parseCSV` accepts this row whose
latitude parses to a non-finite value (positive infinity): the acceptance
check is `!isNaN`, not finiteness. -/
theorem c1_counterexample :
    (parseCSV c1Text).length = 1 ∧
    (parseCSV c1Text).all (fun st => !st.google_lat.isFiniteNum) = true := by
  decide

/-- Concrete input for the C1 witness. -/
def c1WText : String := "id,google_lat,google_lon\nB,1.5,2"

/-- Data line of `c1WText`. -/
def c1WLine : List Char := ['B', ',', '1', '.', '5', ',', '2']

theorem c1_witness :
    mkStoreRecord (csvHeaders c1WText) (rowFields c1WLine) ∈ parseCSV c1WText ∧
    validCoords (mkStoreRecord (csvHeaders c1WText) (rowFields c1WLine)) = true :=
  ⟨c1_amended_row_acceptance.2 c1WText c1WLine (by decide) (by decide) (by decide),
   by decide⟩

/-- C7: the quote-aware tokenizer implements the doubled-quote escape.  The
conjuncts state, over the scanner `parseCSVLineChars`: (1) a double quote
immediately followed by another double quote while quoted emits one literal
quote and stays quoted; (2) a double quote while unquoted toggles to quoted
(regardless of the next character); (3) a double quote while quoted followed
by a non-quote character toggles to unquoted; (4) a comma is a field
separator in unquoted state; (5) a comma in quoted state is a literal
character; and (6) the field `"a,""b"""` parses to the literal `a,"b"`. -/
theorem c7_quote_tokenizer :
    (∀ (rest cur : List Char) (fs : List (List Char)),
        parseCSVLineChars ('"' :: '"' :: rest) true cur fs
          = parseCSVLineChars rest true (cur ++ ['"']) fs) ∧
    (∀ (rest cur : List Char) (fs : List (List Char)),
        parseCSVLineChars ('"' :: rest) false cur fs
          = parseCSVLineChars rest true cur fs) ∧
    (∀ (c : Char) (rest cur : List Char) (fs : List (List Char)), ¬(c = '"') →
        parseCSVLineChars ('"' :: c :: rest) true cur fs
          = parseCSVLineChars (c :: rest) false cur fs) ∧
    (∀ (rest cur : List Char) (fs : List (List Char)),
        parseCSVLineChars (',' :: rest) false cur fs
          = parseCSVLineChars rest false [] (fs ++ [cur])) ∧
    (∀ (rest cur : List Char) (fs : List (List Char)),
        parseCSVLineChars (',' :: rest) true cur fs
          = parseCSVLineChars rest true (cur ++ [',']) fs) ∧
    parseCSVLine "\"a,\"\"b\"\"\"" = ["a,\"b\""] := by
  refine ⟨fun rest cur fs => rfl, fun rest cur fs => ?_, fun c rest cur fs h => ?_,
    fun rest cur fs => rfl, fun rest cur fs => rfl, by decide⟩
  · cases rest with
    | nil => rfl
    | cons c r => simp [parseCSVLineChars]
  · simp [parseCSVLineChars, h]

theorem c7_witness :
    parseCSVLineChars ['"', 'x'] true [] []
      = parseCSVLineChars ['x'] false [] [] :=
  c7_quote_tokenizer.2.2.1 'x' [] [] [] (by decide)

/-- C9: `parseCSV` is embedded as a total pure function of the input text
(the source has no throw and only local mutation; possibly-undefined field
accesses are modelled with `Option`), and unparsable rows are silently
excluded: every record of the output passed the coordinate-validity check,
for every input string. -/
theorem c9_parse_total_valid :
    ∀ (text : String) (st : Store), st ∈ parseCSV text → validCoords st = true := by
  intro text st h
  rw [parseCSV_eq] at h
  exact parseRows_sound _ _ st h

/-- Concrete input for the C9 witness. -/
def c9Text : String := "id,google_lat,google_lon\nC,3,4"

theorem c9_witness :
    validCoords (mkStoreRecord (csvHeaders c9Text) (rowFields ['C', ',', '3', ',', '4'])) = true :=
  c9_parse_total_valid c9Text _ (by
    have h : parseCSV c9Text
        = [mkStoreRecord (csvHeaders c9Text) (rowFields ['C', ',', '3', ',', '4'])] := by rfl
    rw [h]
    exact List.mem_singleton_self _)

/-- C10: the `expenditure_band` fallback operates at the value level: when
the field under the `expenditure_band` column is absent or the empty string,
the record takes the value of the `expenditure` field instead (and the empty
string when that too is empty or absent); a non-empty `expenditure_band`
field wins. -/
theorem c10_expenditure_fallback :
    (∀ (headers fields : List String),
        (lookupField headers fields "expenditure_band" = none ∨
         lookupField headers fields "expenditure_band" = some "") →
        (mkStoreRecord headers fields).expenditure_band
          = jsOrStr (lookupField headers fields "expenditure") "") ∧
    (∀ (headers fields : List String) (s : String),
        lookupField headers fields "expenditure_band" = some s → ¬(s = "") →
        (mkStoreRecord headers fields).expenditure_band = s) := by
  constructor
  · intro headers fields h
    rcases h with h | h <;> simp [mkStoreRecord, jsOrStr, h]
  · intro headers fields s h hs
    simp [mkStoreRecord, jsOrStr, h, hs]

/-- Header list where the `expenditure_band` column exists. -/
def c10Headers : List String := ["id", "google_lat", "google_lon", "expenditure_band", "expenditure"]

/-- Row whose `expenditure_band` field is present but empty. -/
def c10Fields : List String := ["A", "1", "2", "", "HIGH"]

theorem c10_witness :
    (mkStoreRecord c10Headers c10Fields).expenditure_band = "HIGH" :=
  (c10_expenditure_fallback.1 c10Headers c10Fields (Or.inr (by decide))).trans (by decide)

/-!
Part B: the marker render passes of `App.tsx` (`unnamed/part_001`).

The Supercluster index is an external library; it is modelled by its
interface: `getClusters bbox zoom` returns the visible nodes, and since
`getChildren cid` returns the direct children of the cluster with id `cid`
within the same index, a cluster node carries its child list directly, so
that the recursive `expandCluster` of the source becomes recursion over that
list.  A Mapbox marker handle is modelled by a natural number allocated from
a counter; `marker.remove()` is recorded in a `destroyed` trace and
`new mapboxgl.Marker...addTo(map)` in a `created` trace.  DOM construction,
CSS class names and click handlers carry no marker-set information and are
outside the embedded state; the marker content (position, aggregate count or
wrapped store, selected flag) is kept.
-/

/-- A geographic coordinate pair `[lng, lat]` as JS numbers. -/
abbrev Coord := JsNum × JsNum

/-- Map bounds, as produced by `getWest/getSouth/getEast/getNorth`. -/
structure BBox where
  west : ℚ
  south : ℚ
  east : ℚ
  north : ℚ
deriving DecidableEq

/-- The map surface state read by the render pass: `getZoom` and
`getBounds` (which may be unavailable). -/
structure MapEnv where
  zoom : ℚ
  bounds : Option BBox
deriving DecidableEq

mutual
/-- A node of the Supercluster tree as seen through `getClusters` /
`getChildren`: a leaf feature wrapping one `Store`, or a cluster feature with
its id, centroid coordinates, `point_count`, and direct children. -/
inductive ClusterNode where
  | leaf (store : Store) (coords : Coord)
  | cluster (cid : ℤ) (coords : Coord) (pointCount : ℕ) (children : NodeList)
/-- A list of cluster nodes (mutual with `ClusterNode`). -/
inductive NodeList where
  | nil
  | cons (head : ClusterNode) (tail : NodeList)
end

/-- Interface model of a built Supercluster index: the `getClusters` query.
`getChildren` is embodied by the child lists carried by cluster nodes. -/
structure ClusterIndex where
  getClusters : BBox → ℤ → List ClusterNode

/-- True exactly on cluster nodes with `point_count <= 8` (the nodes the
render pass expands instead of showing an aggregate marker). -/
def ClusterNode.isSmall : ClusterNode → Bool
  | .leaf _ _ => false
  | .cluster _ _ cnt _ => cnt ≤ 8

/-- Key of the `clusterMarkersRef` JS `Map`, which mixes numeric cluster ids
and string marker ids. -/
inductive MarkerKey where
  | num (n : ℤ)
  | str (s : String)
deriving DecidableEq

/-- Logical content of a rendered marker: an aggregate cluster marker at its
centroid labeled with the count, or an individual store marker (with the
selected-store styling flag of `showStoreMarker`). -/
inductive MarkerContent where
  | aggregate (coords : Coord) (count : ℕ)
  | store (s : Store) (coords : Coord) (isSelected : Bool)
deriving DecidableEq

/-- A live Mapbox marker: its allocation handle and its content. -/
structure Marker where
  handle : ℕ
  content : MarkerContent
deriving DecidableEq

/-- JS `Map.prototype.set`: update the value in place if the key is already
bound, else append the binding. -/
def listSet {α : Type} : List (MarkerKey × α) → MarkerKey → α → List (MarkerKey × α)
  | [], k, v => [(k, v)]
  | (k', v') :: rest, k, v =>
      if k' = k then (k, v) :: rest else (k', v') :: listSet rest k v

/-- Accumulator of one render pass: the marker map under construction, the
handle counter, the trace of handles created in this pass, and the counter
into the per-pass stream of `Math.random()` draws. -/
structure RenderAcc where
  markers : List (MarkerKey × Marker)
  nextHandle : ℕ
  created : List ℕ
  randCtr : ℕ
deriving DecidableEq

/-- Create one Mapbox marker and bind it in the marker map under `key`. -/
def pushMarker (key : MarkerKey) (content : MarkerContent) (acc : RenderAcc) : RenderAcc :=
  { markers := listSet acc.markers key ⟨acc.nextHandle, content⟩
    nextHandle := acc.nextHandle + 1
    created := acc.created ++ [acc.nextHandle]
    randCtr := acc.randCtr }

/-- The `showStoreMarker` call inside `expandCluster`: the marker id is the
template literal of the store id, a hyphen, and a fresh `Math.random()`
draw. -/
def pushExpandedStore (rand : ℕ → String) (s : Store) (coords : Coord)
    (acc : RenderAcc) : RenderAcc :=
  pushMarker (MarkerKey.str (jsTemplate s.id ++ "-" ++ rand acc.randCtr))
    (MarkerContent.store s coords false) { acc with randCtr := acc.randCtr + 1 }

mutual
/-- Dispatch of one node of the `getClusters` result, transcribed from the
`clusters.forEach` body: a cluster with `point_count > 8` renders one
aggregate marker keyed by the cluster id; a cluster with `point_count <= 8`
is expanded via `expandCluster`; a leaf renders one individual store marker
keyed by the store id. -/
def renderNode (rand : ℕ → String) : ClusterNode → RenderAcc → RenderAcc
  | .cluster cid coords cnt children, acc =>
      if 8 < cnt then pushMarker (MarkerKey.num cid) (MarkerContent.aggregate coords cnt) acc
      else expandChildren rand children acc
  | .leaf s coords, acc =>
      pushMarker (MarkerKey.str (jsTemplate s.id)) (MarkerContent.store s coords false) acc
/-- The `children.forEach` loop of `expandCluster`. -/
def expandChildren (rand : ℕ → String) : NodeList → RenderAcc → RenderAcc
  | .nil, acc => acc
  | .cons n rest, acc => expandChildren rand rest (expandChild rand n acc)
/-- One child inside `expandCluster`: a cluster child is expanded recursively
(regardless of its own count); a leaf child renders one individual store
marker with a random-suffixed id. -/
def expandChild (rand : ℕ → String) : ClusterNode → RenderAcc → RenderAcc
  | .cluster _ _ _ children, acc => expandChildren rand children acc
  | .leaf s coords, acc => pushExpandedStore rand s coords acc
end

/-- The `clusters.forEach` over the `getClusters` result. -/
def renderNodes (rand : ℕ → String) (acc : RenderAcc) : List ClusterNode → RenderAcc
  | [] => acc
  | n :: rest => renderNodes rand (renderNode rand n acc) rest

/-- The mutable app state read and written by the render passes:
`clusterMarkersRef` (with the handle counter of our marker model),
`selectedStoreRef` and `filteredStoresRef`. -/
structure AppState where
  clusterMarkers : List (MarkerKey × Marker)
  nextHandle : ℕ
  selectedStore : Option Store
  filteredStores : List Store
deriving DecidableEq

/-- Result of one effect run: the new state, the handles destroyed by
`marker.remove()`, and the handles created. -/
structure PassResult where
  st : AppState
  destroyed : List ℕ
  created : List ℕ
deriving DecidableEq

/-- Handles of the currently rendered markers. -/
def handlesOf (m : List (MarkerKey × Marker)) : List ℕ :=
  m.map (fun p => p.2.handle)

/-- The `updateClusters` callback, transcribed step by step: bail out when
the map or the active index (`filteredClusterRef.current || clusterRef.current`)
is missing; bail out when a store is selected; remove all old cluster markers
and clear the map; bail out (markers left cleared) when the filtered store
set is empty; read zoom and bounds and bail out (markers left cleared) when
bounds are unavailable; otherwise query `getClusters` with the bbox and the
floored zoom and render every returned node. -/
def updateClusters (mapEnv : Option MapEnv) (filteredCluster clusterIdx : Option ClusterIndex)
    (rand : ℕ → String) (st : AppState) : PassResult :=
  match mapEnv, filteredCluster <|> clusterIdx with
  | none, _ => ⟨st, [], []⟩
  | some _, none => ⟨st, [], []⟩
  | some m, some activeCluster =>
      if st.selectedStore.isSome then ⟨st, [], []⟩
      else
        let destroyed := handlesOf st.clusterMarkers
        if st.filteredStores.isEmpty then ⟨{ st with clusterMarkers := [] }, destroyed, []⟩
        else
          match m.bounds with
          | none => ⟨{ st with clusterMarkers := [] }, destroyed, []⟩
          | some b =>
              let nodes := activeCluster.getClusters b (Int.floor m.zoom)
              let acc := renderNodes rand ⟨[], st.nextHandle, [], 0⟩ nodes
              ⟨{ st with clusterMarkers := acc.markers, nextHandle := acc.nextHandle },
                destroyed, acc.created⟩

/-- The store-selection effect, transcribed: with a selected store, remove
every rendered marker, fly to the store (external map motion) and show only
the selected store's marker with id `selected-${id}` and selected styling;
with no selected store, restore normal clustering by running
`updateClusters` (the POI-marker clears touch a different marker map). -/
def selectedStoreEffect (mapEnv : Option MapEnv) (filteredCluster clusterIdx : Option ClusterIndex)
    (rand : ℕ → String) (st : AppState) : PassResult :=
  match mapEnv with
  | none => ⟨st, [], []⟩
  | some _ =>
      match st.selectedStore with
      | some s =>
          ⟨{ st with
              clusterMarkers := [(MarkerKey.str ("selected-" ++ jsTemplate s.id),
                ⟨st.nextHandle, MarkerContent.store s (s.google_lon, s.google_lat) true⟩)]
              nextHandle := st.nextHandle + 1 },
            handlesOf st.clusterMarkers, [st.nextHandle]⟩
      | none => updateClusters mapEnv filteredCluster clusterIdx rand st

mutual
/-- The descendant leaves of one node, in `expandCluster` visit order. -/
def childLeaves : ClusterNode → List (Store × Coord)
  | .leaf s coords => [(s, coords)]
  | .cluster _ _ _ children => childrenLeaves children
/-- The descendant leaves of a child list, in visit order. -/
def childrenLeaves : NodeList → List (Store × Coord)
  | .nil => []
  | .cons n rest => childLeaves n ++ childrenLeaves rest
end

/-- Push one random-suffixed individual store marker per listed leaf. -/
def pushStores (rand : ℕ → String) (l : List (Store × Coord)) (acc : RenderAcc) : RenderAcc :=
  l.foldl (fun a p => pushExpandedStore rand p.1 p.2 a) acc

/-- The logical marker set: keys with marker contents, handles erased. -/
def markersView (m : List (MarkerKey × Marker)) : List (MarkerKey × MarkerContent) :=
  m.map (fun p => (p.1, p.2.content))

theorem mem_listSet {α : Type} (m : List (MarkerKey × α)) (k : MarkerKey) (v : α)
    (p : MarkerKey × α) (h : p ∈ listSet m k v) : p ∈ m ∨ p = (k, v) := by
  induction m with
  | nil =>
      simp only [listSet, List.mem_singleton] at h
      exact Or.inr h
  | cons q rest ih =>
      obtain ⟨k', v'⟩ := q
      simp only [listSet] at h
      split at h
      · rcases List.mem_cons.mp h with h1 | h1
        · exact Or.inr h1
        · exact Or.inl (List.mem_cons_of_mem _ h1)
      · rcases List.mem_cons.mp h with h1 | h1
        · exact Or.inl (h1 ▸ List.mem_cons_self _ _)
        · rcases ih h1 with h2 | h2
          · exact Or.inl (List.mem_cons_of_mem _ h2)
          · exact Or.inr h2

theorem markersView_listSet (m : List (MarkerKey × Marker)) (k : MarkerKey) (mk : Marker) :
    markersView (listSet m k mk) = listSet (markersView m) k mk.content := by
  induction m with
  | nil => rfl
  | cons q rest ih =>
      obtain ⟨k', v'⟩ := q
      simp only [listSet, markersView, List.map_cons]
      split
      · simp [markersView]
      · simp only [markersView, List.map_cons] at ih ⊢
        rw [ih]

theorem updateClusters_of_selected (mapEnv : Option MapEnv) (fc ci : Option ClusterIndex)
    (rand : ℕ → String) (st : AppState) (h : st.selectedStore.isSome = true) :
    updateClusters mapEnv fc ci rand st = ⟨st, [], []⟩ := by
  unfold updateClusters
  cases mapEnv with
  | none => rfl
  | some m =>
      cases hfc : (fc <|> ci) with
      | none => rfl
      | some a => simp [h]

theorem updateClusters_render (m : MapEnv) (fc ci : Option ClusterIndex) (idx : ClusterIndex)
    (rand : ℕ → String) (st : AppState) (b : BBox)
    (hidx : (fc <|> ci) = some idx) (hsel : st.selectedStore = none)
    (hfs : st.filteredStores.isEmpty = false) (hb : m.bounds = some b) :
    updateClusters (some m) fc ci rand st =
      ⟨{ st with
          clusterMarkers := (renderNodes rand ⟨[], st.nextHandle, [], 0⟩
            (idx.getClusters b (Int.floor m.zoom))).markers
          nextHandle := (renderNodes rand ⟨[], st.nextHandle, [], 0⟩
            (idx.getClusters b (Int.floor m.zoom))).nextHandle },
        handlesOf st.clusterMarkers,
        (renderNodes rand ⟨[], st.nextHandle, [], 0⟩
          (idx.getClusters b (Int.floor m.zoom))).created⟩ := by
  unfold updateClusters
  rw [hidx]
  simp [hsel, hfs, hb]

mutual
theorem expandChild_eq (rand : ℕ → String) (n : ClusterNode) (acc : RenderAcc) :
    expandChild rand n acc = pushStores rand (childLeaves n) acc :=
  match n with
  | .leaf s coords => rfl
  | .cluster cid coords cnt children => by
      rw [expandChild, childLeaves]
      exact expandChildren_eq rand children acc
theorem expandChildren_eq (rand : ℕ → String) (ch : NodeList) (acc : RenderAcc) :
    expandChildren rand ch acc = pushStores rand (childrenLeaves ch) acc :=
  match ch with
  | .nil => rfl
  | .cons n rest => by
      rw [expandChildren, childrenLeaves]
      rw [expandChild_eq rand n acc]
      rw [expandChildren_eq rand rest (pushStores rand (childLeaves n) acc)]
      simp [pushStores, List.foldl_append]
end

/-- C5: dispatch of the Clustered render pass over each node returned by
`getClusters`.  A cluster with `point_count > 8` renders exactly one
aggregate marker at its centroid labeled with the count (keyed by the
cluster id); a cluster with `point_count <= 8` renders no aggregate marker
and instead renders one individual store marker per descendant leaf, in
`getChildren` visit order; a leaf renders one individual store marker. -/
theorem c5_node_dispatch :
    (∀ (rand : ℕ → String) (s : Store) (coords : Coord) (acc : RenderAcc),
        renderNode rand (ClusterNode.leaf s coords) acc
          = pushMarker (MarkerKey.str (jsTemplate s.id))
              (MarkerContent.store s coords false) acc) ∧
    (∀ (rand : ℕ → String) (cid : ℤ) (coords : Coord) (cnt : ℕ) (ch : NodeList)
        (acc : RenderAcc), 8 < cnt →
        renderNode rand (ClusterNode.cluster cid coords cnt ch) acc
          = pushMarker (MarkerKey.num cid) (MarkerContent.aggregate coords cnt) acc) ∧
    (∀ (rand : ℕ → String) (cid : ℤ) (coords : Coord) (cnt : ℕ) (ch : NodeList)
        (acc : RenderAcc), cnt ≤ 8 →
        renderNode rand (ClusterNode.cluster cid coords cnt ch) acc
          = pushStores rand (childrenLeaves ch) acc) := by
  refine ⟨fun _ _ _ _ => rfl, fun rand cid coords cnt ch acc h => ?_,
    fun rand cid coords cnt ch acc h => ?_⟩
  · rw [renderNode, if_pos h]
  · rw [renderNode, if_neg (by omega)]
    exact expandChildren_eq rand ch acc

mutual
theorem created_grow_renderNode (rand : ℕ → String) (n : ClusterNode) (acc : RenderAcc) :
    ∃ l, (renderNode rand n acc).created = acc.created ++ l :=
  match n with
  | .leaf s coords => ⟨[acc.nextHandle], rfl⟩
  | .cluster cid coords cnt children => by
      rw [renderNode]
      split
      · exact ⟨[acc.nextHandle], rfl⟩
      · exact created_grow_expandChildren rand children acc
theorem created_grow_expandChildren (rand : ℕ → String) (ch : NodeList) (acc : RenderAcc) :
    ∃ l, (expandChildren rand ch acc).created = acc.created ++ l :=
  match ch with
  | .nil => ⟨[], by simp [expandChildren]⟩
  | .cons n rest => by
      rw [expandChildren]
      obtain ⟨l1, h1⟩ := created_grow_expandChild rand n acc
      obtain ⟨l2, h2⟩ := created_grow_expandChildren rand rest (expandChild rand n acc)
      exact ⟨l1 ++ l2, by rw [h2, h1, List.append_assoc]⟩
theorem created_grow_expandChild (rand : ℕ → String) (n : ClusterNode) (acc : RenderAcc) :
    ∃ l, (expandChild rand n acc).created = acc.created ++ l :=
  match n with
  | .leaf s coords => ⟨[acc.nextHandle], rfl⟩
  | .cluster cid coords cnt children => by
      rw [expandChild]
      exact created_grow_expandChildren rand children acc
end

theorem created_grow_renderNodes (rand : ℕ → String) (nodes : List ClusterNode)
    (acc : RenderAcc) : ∃ l, (renderNodes rand acc nodes).created = acc.created ++ l := by
  induction nodes generalizing acc with
  | nil => exact ⟨[], by simp [renderNodes]⟩
  | cons n rest ih =>
      rw [renderNodes]
      obtain ⟨l1, h1⟩ := created_grow_renderNode rand n acc
      obtain ⟨l2, h2⟩ := ih (renderNode rand n acc)
      exact ⟨l1 ++ l2, by rw [h2, h1, List.append_assoc]⟩

theorem mem_markers_pushMarker (key : MarkerKey) (content : MarkerContent) (acc : RenderAcc)
    (p : MarkerKey × Marker) (h : p ∈ (pushMarker key content acc).markers) :
    p ∈ acc.markers ∨ p.2.handle ∈ (pushMarker key content acc).created := by
  rcases mem_listSet acc.markers key ⟨acc.nextHandle, content⟩ p h with h1 | h1
  · exact Or.inl h1
  · refine Or.inr ?_
    rw [h1]
    simp [pushMarker]

mutual
theorem mem_markers_renderNode (rand : ℕ → String) (n : ClusterNode) (acc : RenderAcc)
    (p : MarkerKey × Marker) (h : p ∈ (renderNode rand n acc).markers) :
    p ∈ acc.markers ∨ p.2.handle ∈ (renderNode rand n acc).created :=
  match n with
  | .leaf s coords => mem_markers_pushMarker _ _ acc p h
  | .cluster cid coords cnt children => by
      rw [renderNode] at h ⊢
      split at h
      · rw [if_pos (by assumption)]
        exact mem_markers_pushMarker _ _ acc p h
      · rw [if_neg (by assumption)]
        exact mem_markers_expandChildren rand children acc p h
theorem mem_markers_expandChildren (rand : ℕ → String) (ch : NodeList) (acc : RenderAcc)
    (p : MarkerKey × Marker) (h : p ∈ (expandChildren rand ch acc).markers) :
    p ∈ acc.markers ∨ p.2.handle ∈ (expandChildren rand ch acc).created :=
  match ch with
  | .nil => Or.inl h
  | .cons n rest => by
      rw [expandChildren] at h ⊢
      rcases mem_markers_expandChildren rand rest (expandChild rand n acc) p h with h1 | h1
      · rcases mem_markers_expandChild rand n acc p h1 with h2 | h2
        · exact Or.inl h2
        · refine Or.inr ?_
          obtain ⟨l, hl⟩ := created_grow_expandChildren rand rest (expandChild rand n acc)
          rw [hl]
          exact List.mem_append_left _ h2
      · exact Or.inr h1
theorem mem_markers_expandChild (rand : ℕ → String) (n : ClusterNode) (acc : RenderAcc)
    (p : MarkerKey × Marker) (h : p ∈ (expandChild rand n acc).markers) :
    p ∈ acc.markers ∨ p.2.handle ∈ (expandChild rand n acc).created :=
  match n with
  | .leaf s coords => by
      rw [expandChild] at h ⊢
      rcases mem_listSet _ _ _ p h with h1 | h1
      · exact Or.inl h1
      · refine Or.inr ?_
        rw [h1]
        simp [pushExpandedStore, pushMarker]
  | .cluster cid coords cnt children => by
      rw [expandChild] at h ⊢
      exact mem_markers_expandChildren rand children acc p h
end

theorem mem_markers_renderNodes (rand : ℕ → String) (nodes : List ClusterNode)
    (acc : RenderAcc) (p : MarkerKey × Marker)
    (h : p ∈ (renderNodes rand acc nodes).markers) :
    p ∈ acc.markers ∨ p.2.handle ∈ (renderNodes rand acc nodes).created := by
  induction nodes generalizing acc with
  | nil => exact Or.inl h
  | cons n rest ih =>
      rw [renderNodes] at h ⊢
      rcases ih (renderNode rand n acc) h with h1 | h1
      · rcases mem_markers_renderNode rand n acc p h1 with h2 | h2
        · exact Or.inl h2
        · refine Or.inr ?_
          obtain ⟨l, hl⟩ := created_grow_renderNodes rand rest (renderNode rand n acc)
          rw [hl]
          exact List.mem_append_left _ h2
      · exact Or.inr h1

/-- C2 (amended): consecutive Clustered render passes do not diff against the
previously rendered set.  Every pass that reaches the render stage first
destroys every previously rendered marker (the `destroyed` trace is exactly
the handles of the old marker map, including markers whose identity is also
in the newly computed set) and every marker of the new set is freshly
created in that pass. -/
theorem c2_amended_full_recreate (m : MapEnv) (fc ci : Option ClusterIndex) (idx : ClusterIndex)
    (rand : ℕ → String) (st : AppState) (b : BBox)
    (hidx : (fc <|> ci) = some idx) (hsel : st.selectedStore = none)
    (hfs : st.filteredStores.isEmpty = false) (hb : m.bounds = some b) :
    (updateClusters (some m) fc ci rand st).destroyed = handlesOf st.clusterMarkers ∧
    ∀ p ∈ (updateClusters (some m) fc ci rand st).st.clusterMarkers,
      p.2.handle ∈ (updateClusters (some m) fc ci rand st).created := by
  rw [updateClusters_render m fc ci idx rand st b hidx hsel hfs hb]
  refine ⟨rfl, ?_⟩
  intro p hp
  rcases mem_markers_renderNodes rand (idx.getClusters b (Int.floor m.zoom))
      ⟨[], st.nextHandle, [], 0⟩ p hp with h1 | h1
  · simp at h1
  · exact h1

theorem view_pushMarker (key : MarkerKey) (content : MarkerContent) (acc1 acc2 : RenderAcc)
    (hm : markersView acc1.markers = markersView acc2.markers) :
    markersView (pushMarker key content acc1).markers
      = markersView (pushMarker key content acc2).markers := by
  simp only [pushMarker, markersView_listSet]
  rw [hm]

mutual
theorem view_renderNode (rand : ℕ → String) (n : ClusterNode) (acc1 acc2 : RenderAcc)
    (hm : markersView acc1.markers = markersView acc2.markers)
    (hr : acc1.randCtr = acc2.randCtr) :
    markersView (renderNode rand n acc1).markers
        = markersView (renderNode rand n acc2).markers ∧
      (renderNode rand n acc1).randCtr = (renderNode rand n acc2).randCtr :=
  match n with
  | .leaf s coords => by
      rw [renderNode, renderNode]
      exact ⟨view_pushMarker _ _ acc1 acc2 hm, hr⟩
  | .cluster cid coords cnt children => by
      rw [renderNode, renderNode]
      split
      · exact ⟨view_pushMarker _ _ acc1 acc2 hm, hr⟩
      · exact view_expandChildren rand children acc1 acc2 hm hr
theorem view_expandChildren (rand : ℕ → String) (ch : NodeList) (acc1 acc2 : RenderAcc)
    (hm : markersView acc1.markers = markersView acc2.markers)
    (hr : acc1.randCtr = acc2.randCtr) :
    markersView (expandChildren rand ch acc1).markers
        = markersView (expandChildren rand ch acc2).markers ∧
      (expandChildren rand ch acc1).randCtr = (expandChildren rand ch acc2).randCtr :=
  match ch with
  | .nil => ⟨hm, hr⟩
  | .cons n rest => by
      rw [expandChildren, expandChildren]
      obtain ⟨hm1, hr1⟩ := view_expandChild rand n acc1 acc2 hm hr
      exact view_expandChildren rand rest _ _ hm1 hr1
theorem view_expandChild (rand : ℕ → String) (n : ClusterNode) (acc1 acc2 : RenderAcc)
    (hm : markersView acc1.markers = markersView acc2.markers)
    (hr : acc1.randCtr = acc2.randCtr) :
    markersView (expandChild rand n acc1).markers
        = markersView (expandChild rand n acc2).markers ∧
      (expandChild rand n acc1).randCtr = (expandChild rand n acc2).randCtr :=
  match n with
  | .leaf s coords => by
      rw [expandChild, expandChild]
      simp only [pushExpandedStore, pushMarker, markersView_listSet]
      rw [hm, hr]
      exact ⟨rfl, rfl⟩
  | .cluster cid coords cnt children => by
      rw [expandChild, expandChild]
      exact view_expandChildren rand children acc1 acc2 hm hr
end

theorem view_renderNodes (rand : ℕ → String) (nodes : List ClusterNode)
    (acc1 acc2 : RenderAcc)
    (hm : markersView acc1.markers = markersView acc2.markers)
    (hr : acc1.randCtr = acc2.randCtr) :
    markersView (renderNodes rand acc1 nodes).markers
        = markersView (renderNodes rand acc2 nodes).markers ∧
      (renderNodes rand acc1 nodes).randCtr = (renderNodes rand acc2 nodes).randCtr := by
  induction nodes generalizing acc1 acc2 with
  | nil => exact ⟨hm, hr⟩
  | cons n rest ih =>
      rw [renderNodes, renderNodes]
      obtain ⟨hm1, hr1⟩ := view_renderNode rand n acc1 acc2 hm hr
      exact ih _ _ hm1 hr1

theorem renderNode_rand_eq (rand1 rand2 : ℕ → String) (n : ClusterNode) (acc : RenderAcc)
    (h : n.isSmall = false) : renderNode rand1 n acc = renderNode rand2 n acc := by
  cases n with
  | leaf s coords => rfl
  | cluster cid coords cnt ch =>
      simp only [ClusterNode.isSmall, decide_eq_false_iff_not, not_le] at h
      rw [renderNode, renderNode, if_pos h, if_pos h]

theorem renderNodes_rand_eq (rand1 rand2 : ℕ → String) (nodes : List ClusterNode)
    (acc : RenderAcc) (h : ∀ n ∈ nodes, n.isSmall = false) :
    renderNodes rand1 acc nodes = renderNodes rand2 acc nodes := by
  induction nodes generalizing acc with
  | nil => rfl
  | cons n rest ih =>
      rw [renderNodes, renderNodes]
      rw [renderNode_rand_eq rand1 rand2 n acc (h n (List.mem_cons_self _ _))]
      exact ih _ (fun x hx => h x (List.mem_cons_of_mem _ hx))

/-- C3 (amended): for a fixed viewport and unchanged active index, the
Clustered recompute is deterministic at the level of the logical marker set
(keys with marker contents) provided no returned cluster needs small-cluster
expansion: running the pass twice in a row, with arbitrary and possibly
different streams of `Math.random()` draws, yields the same logical marker
set.  Markers produced by small-cluster expansion are excluded because their
identity embeds a fresh `Math.random()` draw and is NOT stable across runs
(see the counterexample). -/
theorem c3_amended_determinism (m : MapEnv) (fc ci : Option ClusterIndex) (idx : ClusterIndex)
    (rand1 rand2 : ℕ → String) (st : AppState) (b : BBox)
    (hidx : (fc <|> ci) = some idx) (hsel : st.selectedStore = none)
    (hfs : st.filteredStores.isEmpty = false) (hb : m.bounds = some b)
    (hbig : ∀ n ∈ idx.getClusters b (Int.floor m.zoom), n.isSmall = false) :
    markersView (updateClusters (some m) fc ci rand1 st).st.clusterMarkers
      = markersView (updateClusters (some m) fc ci rand2
          (updateClusters (some m) fc ci rand1 st).st).st.clusterMarkers := by
  rw [updateClusters_render m fc ci idx rand1 st b hidx hsel hfs hb]
  rw [updateClusters_render m fc ci idx rand2
    ({ st with
        clusterMarkers := (renderNodes rand1 ⟨[], st.nextHandle, [], 0⟩
          (idx.getClusters b (Int.floor m.zoom))).markers
        nextHandle := (renderNodes rand1 ⟨[], st.nextHandle, [], 0⟩
          (idx.getClusters b (Int.floor m.zoom))).nextHandle }) b hidx hsel hfs hb]
  rw [renderNodes_rand_eq rand2 rand1 _ _ hbig]
  exact (view_renderNodes rand1 (idx.getClusters b (Int.floor m.zoom))
    ⟨[], st.nextHandle, [], 0⟩
    ⟨[], (renderNodes rand1 ⟨[], st.nextHandle, [], 0⟩
        (idx.getClusters b (Int.floor m.zoom))).nextHandle, [], 0⟩
    rfl rfl).1

/-- C4 (amended): when the map viewport is not yet initialized (`getBounds`
returns no bounds) the render pass surfaces no error and creates no markers,
but it is NOT a no-op on the marker set: the pass has already removed every
previously rendered marker before the bounds check, so the marker map is
left empty and the old handles are destroyed. -/
theorem c4_amended_missing_bounds (m : MapEnv) (fc ci : Option ClusterIndex)
    (idx : ClusterIndex) (rand : ℕ → String) (st : AppState)
    (hidx : (fc <|> ci) = some idx) (hsel : st.selectedStore = none)
    (hb : m.bounds = none) :
    updateClusters (some m) fc ci rand st
      = ⟨{ st with clusterMarkers := [] }, handlesOf st.clusterMarkers, []⟩ := by
  unfold updateClusters
  rw [hidx]
  by_cases hf : st.filteredStores.isEmpty <;> simp [hsel, hf, hb]

/-- C6: the Focused-state lifecycle.  (1) While a store is selected the
Clustered recomputation is suspended: `updateClusters` returns the state
unchanged with nothing destroyed or created.  (2) Entering the Focused state
destroys every previously rendered marker and renders exactly one marker,
the focused store's, keyed `selected-${id}` with selected styling at the
store's coordinates.  (3) On defocus the effect is exactly an
`updateClusters` run against the current viewport and active index. -/
theorem c6_focus_lifecycle :
    (∀ (mapEnv : Option MapEnv) (fc ci : Option ClusterIndex) (rand : ℕ → String)
        (st : AppState), st.selectedStore.isSome = true →
        updateClusters mapEnv fc ci rand st = ⟨st, [], []⟩) ∧
    (∀ (m : MapEnv) (fc ci : Option ClusterIndex) (rand : ℕ → String) (st : AppState)
        (s : Store), st.selectedStore = some s →
        selectedStoreEffect (some m) fc ci rand st =
          ⟨{ st with
              clusterMarkers := [(MarkerKey.str ("selected-" ++ jsTemplate s.id),
                ⟨st.nextHandle, MarkerContent.store s (s.google_lon, s.google_lat) true⟩)]
              nextHandle := st.nextHandle + 1 },
            handlesOf st.clusterMarkers, [st.nextHandle]⟩) ∧
    (∀ (m : MapEnv) (fc ci : Option ClusterIndex) (rand : ℕ → String) (st : AppState),
        st.selectedStore = none →
        selectedStoreEffect (some m) fc ci rand st
          = updateClusters (some m) fc ci rand st) := by
  refine ⟨?_, ?_, ?_⟩
  · intro mapEnv fc ci rand st h
    exact updateClusters_of_selected mapEnv fc ci rand st h
  · intro m fc ci rand st s h
    simp [selectedStoreEffect, h]
  · intro m fc ci rand st h
    simp [selectedStoreEffect, h]

/-- Fixture store with the given id and coordinates; every other field takes
the parser's default shape. -/
def mkTestStore (i : String) (la lo : JsNum) : Store :=
  { id := some i, google_lat := la, google_lon := lo, name := some i,
    category := some "store", address := some "addr", phone := "",
    rating := JsNum.fin 0, location_type := "", parking := "", store_size := "",
    T_TL := JsNum.fin 0, M_TL := JsNum.fin 0, F_TL := JsNum.fin 0,
    M_00_04 := JsNum.fin 0, M_05_09 := JsNum.fin 0, M_10_14 := JsNum.fin 0,
    M_15_19 := JsNum.fin 0, M_20_24 := JsNum.fin 0, M_25_29 := JsNum.fin 0,
    M_30_34 := JsNum.fin 0, M_35_39 := JsNum.fin 0, M_40_44 := JsNum.fin 0,
    M_45_49 := JsNum.fin 0, M_50_54 := JsNum.fin 0, M_55_59 := JsNum.fin 0,
    M_60_64 := JsNum.fin 0, M_65_69 := JsNum.fin 0, M_70_74 := JsNum.fin 0,
    M_75Plus := JsNum.fin 0, F_00_04 := JsNum.fin 0, F_05_09 := JsNum.fin 0,
    F_10_14 := JsNum.fin 0, F_15_19 := JsNum.fin 0, F_20_24 := JsNum.fin 0,
    F_25_29 := JsNum.fin 0, F_30_34 := JsNum.fin 0, F_35_39 := JsNum.fin 0,
    F_40_44 := JsNum.fin 0, F_45_49 := JsNum.fin 0, F_50_54 := JsNum.fin 0,
    F_55_59 := JsNum.fin 0, F_60_64 := JsNum.fin 0, F_65_69 := JsNum.fin 0,
    F_70_74 := JsNum.fin 0, F_75Plus := JsNum.fin 0, expenditure_band := "" }

/-- Fixture `Math.random()` stream. -/
def exRand1 : ℕ → String := fun _ => "x"

/-- A second fixture stream, drawing different values. -/
def exRand2 : ℕ → String := fun _ => "y"

/-- Fixture stores and viewport. -/
def exStoreA : Store := mkTestStore "A" (JsNum.fin 1) (JsNum.fin 2)

def exStoreB : Store := mkTestStore "B" (JsNum.fin 3) (JsNum.fin 4)

def exBBox : BBox := ⟨0, 0, 10, 10⟩

def exMap : MapEnv := ⟨11, some exBBox⟩

def exMapNoBounds : MapEnv := ⟨11, none⟩

/-- Index whose visible set is a single leaf (store A). -/
def exLeafIndex : ClusterIndex :=
  ⟨fun _ _ => [ClusterNode.leaf exStoreA (JsNum.fin 2, JsNum.fin 1)]⟩

/-- Children of the small fixture cluster: two leaves. -/
def exChildren : NodeList :=
  NodeList.cons (ClusterNode.leaf exStoreA (JsNum.fin 2, JsNum.fin 1))
    (NodeList.cons (ClusterNode.leaf exStoreB (JsNum.fin 4, JsNum.fin 3)) NodeList.nil)

/-- Index whose visible set is one small cluster (`point_count = 2 <= 8`). -/
def exSmallIndex : ClusterIndex :=
  ⟨fun _ _ => [ClusterNode.cluster 1 (JsNum.fin 3, JsNum.fin 2) 2 exChildren]⟩

/-- Index whose visible set needs no expansion: one aggregate, one leaf. -/
def exBigIndex : ClusterIndex :=
  ⟨fun _ _ => [ClusterNode.cluster 2 (JsNum.fin 1, JsNum.fin 1) 12 NodeList.nil,
    ClusterNode.leaf exStoreA (JsNum.fin 2, JsNum.fin 1)]⟩

/-- Initial fixture state: no markers rendered, no selection. -/
def exState0 : AppState := ⟨[], 0, none, [exStoreA, exStoreB]⟩

/-- Fixture state with one rendered marker (key `"A"`, handle 0). -/
def exStateM : AppState :=
  ⟨[(MarkerKey.str "A", ⟨0, MarkerContent.store exStoreA (JsNum.fin 2, JsNum.fin 1) false⟩)],
    1, none, [exStoreA]⟩

/-- Fixture state with a selected store. -/
def exStateSel : AppState :=
  ⟨[(MarkerKey.str "A", ⟨0, MarkerContent.store exStoreA (JsNum.fin 2, JsNum.fin 1) false⟩)],
    5, some exStoreB, [exStoreA]⟩

/-- C2 counterexample: two consecutive Clustered passes over an unchanged
viewport and index rendering the single leaf marker keyed `"A"`.  The marker
identity `"A"` is present in both the previously rendered and the newly
computed set, yet the second pass destroys its old handle 0 and creates a
fresh handle 1: the marker is not left untouched. -/
theorem c2_counterexample :
    ((updateClusters (some exMap) none (some exLeafIndex) exRand1 exState0).st.clusterMarkers.map
        (fun p => (p.1, p.2.handle)) = [(MarkerKey.str "A", 0)]) ∧
    ((updateClusters (some exMap) none (some exLeafIndex) exRand1
        (updateClusters (some exMap) none (some exLeafIndex) exRand1 exState0).st).st.clusterMarkers.map
        (fun p => (p.1, p.2.handle)) = [(MarkerKey.str "A", 1)]) ∧
    (updateClusters (some exMap) none (some exLeafIndex) exRand1
        (updateClusters (some exMap) none (some exLeafIndex) exRand1 exState0).st).destroyed = [0] := by
  decide

theorem c2_witness :
    (updateClusters (some exMap) none (some exLeafIndex) exRand1 exStateM).destroyed
      = handlesOf exStateM.clusterMarkers :=
  (c2_amended_full_recreate exMap none (some exLeafIndex) exLeafIndex exRand1 exStateM
    exBBox rfl rfl rfl rfl).1

/-- C3 counterexample: replaying the same viewport and index across two
consecutive passes with different `Math.random()` draws yields different
marker key sets, because an expanded-leaf marker id is
`${store.id}-${Math.random()}`: the identity is a random value, not a
stable one. -/
theorem c3_counterexample :
    (updateClusters (some exMap) none (some exSmallIndex) exRand1 exState0).st.clusterMarkers.map
        Prod.fst
      ≠ (updateClusters (some exMap) none (some exSmallIndex) exRand2
          (updateClusters (some exMap) none (some exSmallIndex) exRand1 exState0).st).st.clusterMarkers.map
        Prod.fst := by
  decide

theorem c3_witness :
    markersView (updateClusters (some exMap) none (some exBigIndex) exRand1 exState0).st.clusterMarkers
      = markersView (updateClusters (some exMap) none (some exBigIndex) exRand2
          (updateClusters (some exMap) none (some exBigIndex) exRand1 exState0).st).st.clusterMarkers :=
  c3_amended_determinism exMap none (some exBigIndex) exBigIndex exRand1 exRand2 exState0
    exBBox rfl rfl rfl rfl (by decide)

/-- C4 counterexample: with bounds unavailable, the pass is not a no-op on
the marker set: the previously rendered marker (handle 0) is destroyed and
the marker map is left empty, differing from the previous set. -/
theorem c4_counterexample :
    (updateClusters (some exMapNoBounds) none (some exLeafIndex) exRand1 exStateM).st.clusterMarkers
        = [] ∧
    exStateM.clusterMarkers ≠ [] ∧
    (updateClusters (some exMapNoBounds) none (some exLeafIndex) exRand1 exStateM).destroyed
        = [0] := by
  decide

theorem c4_witness :
    updateClusters (some exMapNoBounds) none (some exLeafIndex) exRand1 exStateM
      = ⟨{ exStateM with clusterMarkers := [] }, handlesOf exStateM.clusterMarkers, []⟩ :=
  c4_amended_missing_bounds exMapNoBounds none (some exLeafIndex) exLeafIndex exRand1
    exStateM rfl rfl rfl

theorem c5_witness :
    (renderNode exRand1 (ClusterNode.cluster 7 (JsNum.fin 0, JsNum.fin 0) 9 NodeList.nil)
        ⟨[], 0, [], 0⟩
      = pushMarker (MarkerKey.num 7) (MarkerContent.aggregate (JsNum.fin 0, JsNum.fin 0) 9)
        ⟨[], 0, [], 0⟩) ∧
    (renderNode exRand1 (ClusterNode.cluster 1 (JsNum.fin 3, JsNum.fin 2) 2 exChildren)
        ⟨[], 0, [], 0⟩
      = pushStores exRand1 (childrenLeaves exChildren) ⟨[], 0, [], 0⟩) :=
  ⟨c5_node_dispatch.2.1 exRand1 7 (JsNum.fin 0, JsNum.fin 0) 9 NodeList.nil
      ⟨[], 0, [], 0⟩ (by omega),
    c5_node_dispatch.2.2 exRand1 1 (JsNum.fin 3, JsNum.fin 2) 2 exChildren
      ⟨[], 0, [], 0⟩ (by omega)⟩

theorem c6_witness :
    (updateClusters (some exMap) none (some exLeafIndex) exRand1 exStateSel
      = ⟨exStateSel, [], []⟩) ∧
    (selectedStoreEffect (some exMap) none (some exLeafIndex) exRand1 exStateSel
      = ⟨{ exStateSel with
            clusterMarkers := [(MarkerKey.str ("selected-" ++ jsTemplate exStoreB.id),
              ⟨exStateSel.nextHandle,
                MarkerContent.store exStoreB (exStoreB.google_lon, exStoreB.google_lat) true⟩)]
            nextHandle := exStateSel.nextHandle + 1 },
          handlesOf exStateSel.clusterMarkers, [exStateSel.nextHandle]⟩) ∧
    (selectedStoreEffect (some exMap) none (some exLeafIndex) exRand1 exState0
      = updateClusters (some exMap) none (some exLeafIndex) exRand1 exState0) :=
  ⟨c6_focus_lifecycle.1 (some exMap) none (some exLeafIndex) exRand1 exStateSel rfl,
    c6_focus_lifecycle.2.1 exMap none (some exLeafIndex) exRand1 exStateSel exStoreB rfl,
    c6_focus_lifecycle.2.2 exMap none (some exLeafIndex) exRand1 exState0 rfl⟩

/-!
The nearby-data fetch effect of `App.tsx` (`fetchNearbyData`): two concurrent
lookups are fired with one AbortController and awaited with `Promise.all`.
Each lookup either resolves (with its HTTP `ok` flag and parsed body) or
rejects — with an `AbortError` when the controller aborted it, or with a
network-level error otherwise.  `Promise.all` delivers the first rejection to
the `catch` block.  Since `controller.abort()` makes every still-pending
fetch reject with `AbortError` at that instant, an abort rejection is never
delivered while a network rejection is pending ahead of it: when both
lookups reject, the delivered rejection is a network error iff at least one
rejection is a network error. -/

/-- Nearby similar store, as returned by the nearby-stores lookup. -/
structure SimilarStore where
  id : String
  name : String
  address : String
  lat : ℚ
  lon : ℚ
deriving DecidableEq

/-- Nearby place, as returned by the nearby-places lookup. -/
structure NearbyPlace where
  id : String
  name : String
  address : String
  top_category : String
  lat : ℚ
  lon : ℚ
deriving DecidableEq

/-- Parsed body of the nearby-stores response; fields may be absent. -/
structure NearbyAlfamartsResponse where
  stores : Option (List SimilarStore)
  count : Option ℚ
deriving DecidableEq

/-- Parsed body of the nearby-places response; fields may be absent. -/
structure NearbyPlacesResponse where
  stores : Option (List NearbyPlace)
  counts : Option (List (String × ℚ))
deriving DecidableEq

/-- Why a fetch promise rejected: cancellation or a network-level failure. -/
inductive Rejection where
  | abortErr
  | netErr
deriving DecidableEq

/-- Outcome of one `fetch` call: resolved with an HTTP `ok` flag and body,
or rejected. -/
inductive FetchResult (α : Type) where
  | resolved (ok : Bool) (body : α)
  | rejected (r : Rejection)
deriving DecidableEq

/-- The rejection delivered by `Promise.all` to the `catch` block, if any.
When both lookups reject, a network error wins (see the module comment: an
abort rejection cannot precede a pending network rejection). -/
def caughtError {α β : Type} : FetchResult α → FetchResult β → Option Rejection
  | .rejected r1, .rejected r2 =>
      some (if r1 = Rejection.netErr ∨ r2 = Rejection.netErr
        then Rejection.netErr else Rejection.abortErr)
  | .rejected r1, _ => some r1
  | _, .rejected r2 => some r2
  | _, _ => none

/-- JavaScript `xs || []` on a possibly-absent array (an array value is
always truthy, so only `undefined`/`null` falls back). -/
def jsOrList {α : Type} (v : Option (List α)) : List α := v.getD []

/-- The state fields of the selection controller touched by
`fetchNearbyData`: the two result sets, the counts record, the error
condition and the loading flag. -/
structure NearbyState where
  similarStores : List SimilarStore
  nearbyPlaces : List NearbyPlace
  nearbyCounts : List (String × ℚ)
  nearbyError : Option String
  nearbyLoading : Bool
deriving DecidableEq

/-- The `fetchNearbyData` effect body, transcribed: set loading and clear the
error; await both lookups.  A delivered `AbortError` returns from the catch
with nothing cleared and no error (and the finally skips the loading reset
because the signal is aborted).  Any other delivered rejection, or a
resolved pair with either `ok` flag false (which throws), clears both result
sets and the counts and surfaces the single aggregate error message.  On
full success the three result fields are set from the bodies with `|| []` /
`|| {}` fallbacks.  The `none, _, _` arm is unreachable: `caughtError` is
`none` only when both lookups resolved. -/
def fetchNearbyEffect (r1 : FetchResult NearbyAlfamartsResponse)
    (r2 : FetchResult NearbyPlacesResponse) (st : NearbyState) : NearbyState :=
  let started := { st with nearbyLoading := true, nearbyError := none }
  match caughtError r1 r2, r1, r2 with
  | some Rejection.abortErr, _, _ => started
  | some Rejection.netErr, _, _ =>
      { started with
          similarStores := []
          nearbyPlaces := []
          nearbyCounts := []
          nearbyError := some "Failed to load nearby store data"
          nearbyLoading := false }
  | none, FetchResult.resolved ok1 d1, FetchResult.resolved ok2 d2 =>
      if ok1 && ok2 then
        { started with
            similarStores := jsOrList d1.stores
            nearbyPlaces := jsOrList d2.stores
            nearbyCounts := jsOrList d2.counts
            nearbyLoading := false }
      else
        { started with
            similarStores := []
            nearbyPlaces := []
            nearbyCounts := []
            nearbyError := some "Failed to load nearby store data"
            nearbyLoading := false }
  | none, _, _ => started

/-- C8: failure handling of the two concurrent nearby lookups.  (1) A
delivered non-cancellation rejection clears both result sets and the counts
and surfaces the single aggregate error condition.  (2) Partial success at
the HTTP level — both resolve but either `ok` flag is false — is treated as
full failure: same clearing, same single error.  (3) A cancellation clears
nothing — all three result fields keep their previous values — and surfaces
no error. -/
theorem c8_nearby_failure_handling :
    (∀ (r1 : FetchResult NearbyAlfamartsResponse) (r2 : FetchResult NearbyPlacesResponse)
        (st : NearbyState), caughtError r1 r2 = some Rejection.netErr →
        (fetchNearbyEffect r1 r2 st).similarStores = [] ∧
        (fetchNearbyEffect r1 r2 st).nearbyPlaces = [] ∧
        (fetchNearbyEffect r1 r2 st).nearbyCounts = [] ∧
        (fetchNearbyEffect r1 r2 st).nearbyError = some "Failed to load nearby store data") ∧
    (∀ (ok1 : Bool) (d1 : NearbyAlfamartsResponse) (ok2 : Bool) (d2 : NearbyPlacesResponse)
        (st : NearbyState), (ok1 && ok2) = false →
        (fetchNearbyEffect (FetchResult.resolved ok1 d1) (FetchResult.resolved ok2 d2) st).similarStores = [] ∧
        (fetchNearbyEffect (FetchResult.resolved ok1 d1) (FetchResult.resolved ok2 d2) st).nearbyPlaces = [] ∧
        (fetchNearbyEffect (FetchResult.resolved ok1 d1) (FetchResult.resolved ok2 d2) st).nearbyCounts = [] ∧
        (fetchNearbyEffect (FetchResult.resolved ok1 d1) (FetchResult.resolved ok2 d2) st).nearbyError
          = some "Failed to load nearby store data") ∧
    (∀ (r1 : FetchResult NearbyAlfamartsResponse) (r2 : FetchResult NearbyPlacesResponse)
        (st : NearbyState), caughtError r1 r2 = some Rejection.abortErr →
        (fetchNearbyEffect r1 r2 st).similarStores = st.similarStores ∧
        (fetchNearbyEffect r1 r2 st).nearbyPlaces = st.nearbyPlaces ∧
        (fetchNearbyEffect r1 r2 st).nearbyCounts = st.nearbyCounts ∧
        (fetchNearbyEffect r1 r2 st).nearbyError = none) := by
  refine ⟨?_, ?_, ?_⟩
  · intro r1 r2 st h
    simp [fetchNearbyEffect, h]
  · intro ok1 d1 ok2 d2 st h
    simp [fetchNearbyEffect, caughtError, h]
  · intro r1 r2 st h
    simp [fetchNearbyEffect, h]

/-- Concrete resolved bodies for the C8 witness. -/
def exSimilarBody : NearbyAlfamartsResponse := ⟨some [], some 0⟩

theorem c8_witness :
    (fetchNearbyEffect (FetchResult.resolved true exSimilarBody)
        (FetchResult.rejected Rejection.netErr)
        ⟨[], [], [], none, false⟩).nearbyError = some "Failed to load nearby store data" ∧
    (fetchNearbyEffect (FetchResult.rejected Rejection.abortErr)
        (FetchResult.rejected Rejection.abortErr)
        ⟨[⟨"s", "n", "a", 1, 2⟩], [], [], none, false⟩).similarStores = [⟨"s", "n", "a", 1, 2⟩] :=
  ⟨(c8_nearby_failure_handling.1 (FetchResult.resolved true exSimilarBody)
      (FetchResult.rejected Rejection.netErr) ⟨[], [], [], none, false⟩ rfl).2.2.2,
    (c8_nearby_failure_handling.2.2 (FetchResult.rejected Rejection.abortErr)
      (FetchResult.rejected Rejection.abortErr)
      ⟨[⟨"s", "n", "a", 1, 2⟩], [], [], none, false⟩ (by decide)).1⟩
